import Mathlib

/-!
Verification of the dataframe utilities of `ds_global-education`
(`src/edstats_utils.py`).

The development shallowly embeds the pandas operations the utilities use
over a small table model:

* a `Cell` is a string, a rational number (idealising the float values of
  the dataset) or null (pandas NaN);
* a `DataFrame` is a column-name list together with rows, each row carrying
  its index label (the pandas index) and its cells;
* fallible pandas operations (column access on a missing name, `drop` of a
  missing label, `reset_index` clashing with an existing column) return
  `Except PdErr`, with `PdErr.keyError` / `PdErr.valueError` mirroring the
  exception pandas raises.

The indicator-name parsers of the source use `re` patterns with named
groups; these are embedded as abstract syntax trees (`RE`) for a
backtracking matcher (`mrun`) that follows Python's leftmost-match,
greedy/lazy preference and last-participation capture semantics.  Each
pattern AST below transcribes the corresponding pattern string of the
source character for character.

In-place mutation (`interpolate(..., inplace=True)` and column assignment
in `normalize_population`) is modelled separately by a heap of frames
(`Heap`), on which every frame-producing pandas expression allocates and
the two in-place statements write; the frame-effect theorems show the
pre-existing objects, in particular the inputs, are untouched.
-/

namespace EdStats

/-- Exact rational numbers as normalized fractions (positive denominator,
numerator and denominator coprime), idealising the float values of the
dataset.  A dedicated structure (rather than Mathlib's `ℚ`) keeps every
arithmetic operation reducible by plain kernel evaluation. -/
structure Q where
  num : Int
  den : Nat
deriving DecidableEq, Repr

/-- The normalized fraction `n / d` (every use below has `d ≠ 0`; `d = 0`
yields 0). -/
def mkQ (n d : Int) : Q :=
  if d = 0 then ⟨0, 1⟩
  else
    let n2 : Int := if d < 0 then -n else n
    let d2 : Nat := (if d < 0 then -d else d).toNat
    let g := Nat.gcd n2.natAbs d2
    ⟨n2 / (g : Int), d2 / g⟩

def Q.add (a b : Q) : Q := mkQ (a.num * (b.den : Int) + b.num * (a.den : Int)) ((a.den : Int) * (b.den : Int))

def Q.sub (a b : Q) : Q := mkQ (a.num * (b.den : Int) - b.num * (a.den : Int)) ((a.den : Int) * (b.den : Int))

def Q.mul (a b : Q) : Q := mkQ (a.num * b.num) ((a.den : Int) * (b.den : Int))

def Q.div (a b : Q) : Q := mkQ (a.num * (b.den : Int)) ((a.den : Int) * b.num)

def Q.ofNat (n : Nat) : Q := ⟨(n : Int), 1⟩

def Q.ofInt (n : Int) : Q := ⟨n, 1⟩

instance (n : Nat) : OfNat Q n := ⟨⟨(n : Int), 1⟩⟩

/-- One cell of a table: a string, a number or null (pandas NaN). -/
inductive Cell where
  | str (s : String)
  | num (q : Q)
  | null
deriving DecidableEq, Repr

/-- A pandas DataFrame: ordered column names, and rows each carrying its
index label and its cells (one per column in a well-formed frame). -/
structure DataFrame where
  cols : List String
  idxrows : List (Cell × List Cell)
deriving DecidableEq, Repr

instance : Inhabited DataFrame := ⟨⟨[], []⟩⟩

/-- A frame is well-formed (rectangular) when every row has one cell per
column; every frame pandas builds satisfies this. -/
def DataFrame.WF (d : DataFrame) : Prop := ∀ r ∈ d.idxrows, r.2.length = d.cols.length

instance (d : DataFrame) : Decidable d.WF := by
  unfold DataFrame.WF; exact List.decidableBAll _ _

/-- The errors the modelled pandas operations raise. -/
inductive PdErr where
  | keyError (s : String)
  | valueError (s : String)
deriving DecidableEq, Repr

def Cell.isNull : Cell → Bool
  | Cell.null => true
  | _ => false

/-- Cell at position `i` of a row (total; well-formed frames never read
past the end). -/
def cellAt (cells : List Cell) (i : Nat) : Cell := cells.getD i Cell.null

/-- Position of a column name, pandas raising `KeyError` when absent. -/
def getColIdx (d : DataFrame) (name : String) : Except PdErr Nat :=
  if name ∈ d.cols then Except.ok (d.cols.findIdx (fun c => decide (c = name)))
  else Except.error (PdErr.keyError name)

/-- Boolean-mask row filter (`df[mask]`): keeps columns and index labels. -/
def filterRows (d : DataFrame) (p : List Cell → Bool) : DataFrame :=
  { cols := d.cols, idxrows := d.idxrows.filter (fun r => p r.2) }

/-- Cells kept by a column predicate, pairing each cell with its column. -/
def keepCells (cols : List String) (keep : String → Bool) (cells : List Cell) : List Cell :=
  (cols.zip cells).filterMap (fun p => if keep p.1 then some p.2 else none)

/-- `df.drop(labels, axis=1)`: pandas raises `KeyError` if any label is
missing from the columns (default `errors='raise'`), else removes every
column so named. -/
def dropCols (d : DataFrame) (labels : List String) : Except PdErr DataFrame :=
  match labels.find? (fun y => decide (y ∉ d.cols)) with
  | some y => Except.error (PdErr.keyError y)
  | none => Except.ok
      { cols := d.cols.filter (fun c => decide (c ∉ labels)),
        idxrows := d.idxrows.map
          (fun r => (r.1, keepCells d.cols (fun c => decide (c ∉ labels)) r.2)) }

/-- The fixed year axis of the dataset: 1970..2017, then 2020..2100 in
steps of 5 (source line 355). -/
def yearAxis : List Nat := List.range' 1970 48 1 ++ List.range' 2020 17 5

/-- The fixed year axis as column-name strings. -/
def yearAxisStrs : List String := yearAxis.map (fun n => toString n)

/-- `filter_years` (source lines 344-358): drops every fixed-axis year
column not in the requested list. -/
def filter_years (d : DataFrame) (years : List String) : Except PdErr DataFrame :=
  dropCols d (yearAxisStrs.filter (fun y => decide (y ∉ years)))

/-- Fresh `RangeIndex` labels (pandas merge resets the index). -/
def rangeLabels (rows : List (List Cell)) : List (Cell × List Cell) :=
  rows.enum.map (fun p => (Cell.num (Q.ofNat p.1), p.2))

/-- `append_region` (source lines 86-96):
`pd.merge(df, df_country[['Country Code', 'Region']], on='Country Code')`,
an inner join appending the `Region` column.  The right side is first
projected to the key and `Region` (raising `KeyError` when either is
missing), then each left row is paired with every matching right row, in
left order (pandas inner merge keeps the left key order). -/
def append_region (df df_country : DataFrame) : Except PdErr DataFrame :=
  match getColIdx df_country "Country Code" with
  | Except.error e => Except.error e
  | Except.ok cc2 =>
    match getColIdx df_country "Region" with
    | Except.error e => Except.error e
    | Except.ok rg =>
      let proj := df_country.idxrows.map (fun r => (cellAt r.2 cc2, cellAt r.2 rg))
      match getColIdx df "Country Code" with
      | Except.error e => Except.error e
      | Except.ok cc1 =>
        Except.ok
          { cols := df.cols ++ ["Region"],
            idxrows := rangeLabels ((df.idxrows.map (fun r => r.2)).flatMap (fun cs =>
              (proj.filter (fun pr => decide (pr.1 = cellAt cs cc1))).map
                (fun pr => cs ++ [pr.2]))) }

/-- First position of the `Country Code` column (meaningful when the
column exists). -/
def dfCCIdx (d : DataFrame) : Nat := d.cols.findIdx (fun c => decide (c = "Country Code"))

/-- The country codes of a frame, row by row. -/
def dfCodes (d : DataFrame) : List Cell := d.idxrows.map (fun r => cellAt r.2 (dfCCIdx d))

/-- The `ls_inds` list of `_retrieve_indicator` (source line 101): the
codes of the rows whose `Indicator Name` matches. -/
def ri_ls_inds (df : DataFrame) (m : Cell → Bool) (ni ci : Nat) : List Cell :=
  (df.idxrows.filter (fun r => m (cellAt r.2 ni))).map (fun r => cellAt r.2 ci)

/-- `_retrieve_indicator` (source lines 98-103).  `m` stands for the
compiled case-insensitive pattern applied to an `Indicator Name` cell
(`df['Indicator Name'].str.contains(reg_str, regex=True, case=False)`);
the function collects the codes of the name-matching rows and returns
every row whose code is in that set. -/
def _retrieve_indicator (df : DataFrame) (m : Cell → Bool) : Except PdErr DataFrame :=
  match getColIdx df "Indicator Name" with
  | Except.error e => Except.error e
  | Except.ok ni =>
    match getColIdx df "Indicator Code" with
    | Except.error e => Except.error e
    | Except.ok ci =>
      Except.ok (filterRows df (fun cs => decide (cellAt cs ci ∈ ri_ls_inds df m ni ci)))

/-! ## A small regex engine

Python `re` patterns are embedded as `RE` trees and run by a backtracking
matcher with Python's preference order: alternation tries the left branch
first, greedy repetition tries longer first, lazy repetition shorter
first, and a capture group records the last text it matched on the
successful path.  `reSearch` is `re.search`: the leftmost starting
position with a match wins.  The matcher carries fuel (structural
recursion); `reFuel` is far above the nesting any pattern/string pair in
this file reaches. -/

/-- One item of a character class. -/
inductive CItem where
  | chr (c : Char)
  | range (a b : Char)
  | ws
  | nws
deriving DecidableEq, Repr

/-- Regex abstract syntax: literals, classes, `.` , concatenation,
alternation, greedy/lazy star, greedy/lazy option, (named) groups and the
`$` anchor. -/
inductive RE where
  | eps
  | lit (c : Char)
  | cls (items : List CItem) (neg : Bool)
  | dot
  | cat (a b : RE)
  | alt (a b : RE)
  | star (a : RE) (lazy : Bool)
  | opt (a : RE) (lazy : Bool)
  | grp (name : Option String) (a : RE)
  | eos
deriving DecidableEq, Repr

/-- Python `\s` over ASCII. -/
def isPySpace (c : Char) : Bool :=
  c = ' ' || c = '\t' || c = '\n' || c = '\x0b' || c = '\x0c' || c = '\x0d'

/-- Character comparison, case-folded when `ci` (re.IGNORECASE). -/
def charEqCI (ci : Bool) (a b : Char) : Bool :=
  if ci then a.toLower = b.toLower else a = b

def citemMatch (ci : Bool) (it : CItem) (c : Char) : Bool :=
  match it with
  | CItem.chr a => charEqCI ci a c
  | CItem.range a b => decide (a ≤ c) && decide (c ≤ b)
  | CItem.ws => isPySpace c
  | CItem.nws => ! isPySpace c

def clsMatch (ci : Bool) (items : List CItem) (neg : Bool) (c : Char) : Bool :=
  (items.any (fun it => citemMatch ci it c)) != neg

/-- Captures: group name paired with captured characters, newest first
(a later participation of the same group shadows an earlier one). -/
def Caps := List (String × List Char)

def setCap (caps : Caps) (n : String) (v : List Char) : Caps := (n, v) :: caps

def getCap (caps : Caps) (n : String) : Option (List Char) :=
  List.lookup n caps

/-- The backtracking matcher in continuation-passing style.  `k` receives
the remaining input and captures of the success path; a failed branch
discards its captures because the original ones are re-used for the next
alternative. -/
def mrun (ci : Bool) :
    Nat → RE → List Char → Caps → (List Char → Caps → Option Caps) → Option Caps
  | 0, _, _, _, _ => none
  | Nat.succ fuel, re, s, caps, k =>
    match re with
    | RE.eps => k s caps
    | RE.lit c =>
      match s with
      | [] => none
      | d :: t => if charEqCI ci c d then k t caps else none
    | RE.cls items neg =>
      match s with
      | [] => none
      | d :: t => if clsMatch ci items neg d then k t caps else none
    | RE.dot =>
      match s with
      | [] => none
      | d :: t => if d = '\n' then none else k t caps
    | RE.cat a b =>
      mrun ci fuel a s caps (fun t caps2 => mrun ci fuel b t caps2 k)
    | RE.alt a b =>
      match mrun ci fuel a s caps k with
      | some r => some r
      | none => mrun ci fuel b s caps k
    | RE.star a lazy =>
      if lazy then
        match k s caps with
        | some r => some r
        | none =>
          mrun ci fuel a s caps (fun t caps2 =>
            if t.length < s.length then mrun ci fuel (RE.star a lazy) t caps2 k else none)
      else
        match mrun ci fuel a s caps (fun t caps2 =>
            if t.length < s.length then mrun ci fuel (RE.star a lazy) t caps2 k else none) with
        | some r => some r
        | none => k s caps
    | RE.opt a lazy =>
      if lazy then
        match k s caps with
        | some r => some r
        | none => mrun ci fuel a s caps k
      else
        match mrun ci fuel a s caps k with
        | some r => some r
        | none => k s caps
    | RE.grp name a =>
      mrun ci fuel a s caps (fun t caps2 =>
        k t (match name with
             | some n => setCap caps2 n (s.take (s.length - t.length))
             | none => caps2))
    | RE.eos => if s = [] || s = ['\n'] then k s caps else none

def reFuel : Nat := 20000

/-- `re.search` on a character list: try each start position left to
right, returning the first match's captures. -/
def searchFrom (ci : Bool) (re : RE) : List Char → Option Caps
  | [] => mrun ci reFuel re [] [] (fun _ caps => some caps)
  | c :: t =>
    match mrun ci reFuel re (c :: t) [] (fun _ caps => some caps) with
    | some caps => some caps
    | none => searchFrom ci re t

def reSearch (ci : Bool) (re : RE) (s : String) : Option Caps := searchFrom ci re s.data

/-- `Series.str.contains(pat, regex=True)` on one string. -/
def reContains (ci : Bool) (re : RE) (s : String) : Bool := (reSearch ci re s).isSome

/-- A literal string as a regex. -/
def lits (s : String) : RE := s.data.foldr (fun c r => RE.cat (RE.lit c) r) RE.eps

/-- Concatenation of a pattern list. -/
def cats (l : List RE) : RE := l.foldr RE.cat RE.eps

/-- `[0-9]` -/
def reDigit : RE := RE.cls [CItem.range '0' '9'] false

/-- `[0-9]+` (greedy) -/
def reDigits : RE := RE.cat reDigit (RE.star reDigit false)

/-- `[\s\S]` -/
def reAny : RE := RE.cls [CItem.ws, CItem.nws] false

/-- `[ ]?` (greedy) -/
def reOptSp : RE := RE.opt (RE.cls [CItem.chr ' '] false) false

/-- The selector mask of `_retrieve_indicator`: case-insensitive regex
containment on a string cell (a non-string cell never matches). -/
def cellMatchCI (re : RE) (c : Cell) : Bool :=
  match c with
  | Cell.str s => reContains true re s
  | _ => false

/-- `Series.str.extract` on one cell: the captures of the first match of
the (case-sensitive) pattern, none when the cell is not a string or the
pattern does not match. -/
def extractCaps (re : RE) (c : Cell) : Option Caps :=
  match c with
  | Cell.str s => reSearch false re s
  | _ => none

/-- The extracted column for one named group: the captured text, or null
for an unmatched group or an unmatched row. -/
def capCell (o : Option Caps) (n : String) : Cell :=
  match o with
  | some caps =>
    match getCap caps n with
    | some v => Cell.str (String.mk v)
    | none => Cell.null
  | none => Cell.null

/-- `fillna` on one cell with a string default. -/
def fillCell (c : Cell) (v : String) : Cell :=
  match c with
  | Cell.null => Cell.str v
  | c => c

/-! ## The indicator-name patterns used by the claims

Each AST transcribes the pattern string of the source character for
character: `\.` is `RE.lit` of a dot, `\(`/`\)` are literal parentheses,
an unescaped `(`...`)` is a group, `.` is `RE.dot`. -/

/-- Selector `'Barro-Lee: Percentage of .*'` (source line 163). -/
def barroSel : RE := RE.cat (lits "Barro-Lee: Percentage of ") (RE.star RE.dot false)

/-- `'age [0-9]+(-[0-9]+|\+)'`, the age-group subpattern. -/
def reAgeGroup : RE :=
  cats [lits "age ", reDigits,
    RE.alt (RE.cat (RE.lit '-') reDigits) (RE.lit '+')]

/-- Extractor of `retrieve_barrolee_percentage` (source line 166):
`'Barro-Lee: (?P<indicator>Percentage of[ ]?(?P<gender>female)? population[ ]?(?P<age_group>age [0-9]+(-[0-9]+|\+))? with (?P<schooling>[\s\S]+?)(\. (?P<completed>[\s\S]+))?$)'` -/
def barroExt : RE :=
  cats [lits "Barro-Lee: ",
    RE.grp (some "indicator") (cats [
      lits "Percentage of", reOptSp,
      RE.opt (RE.grp (some "gender") (lits "female")) false,
      lits " population", reOptSp,
      RE.opt (RE.grp (some "age_group") reAgeGroup) false,
      lits " with ",
      RE.grp (some "schooling") (RE.cat reAny (RE.star reAny true)),
      RE.opt (RE.grp none (cats [lits ". ",
        RE.grp (some "completed") (RE.cat reAny (RE.star reAny false))])) false,
      RE.eos])]

/-- Selector `'PISA: .* proficiency level'` (source line 288). -/
def pisaSel : RE :=
  cats [lits "PISA: ", RE.star RE.dot false, lits " proficiency level"]

/-- Extractor of `retrieve_skill_pisa` (source line 291):
`'PISA: (?P<indicator>(?P<gender>(Male|Female))?[ ]*[0-9]+-year-olds by (?P<subject>.*?) proficiency level \(%\)\. (?P<level>[\S ]+))'` -/
def pisaExt : RE :=
  cats [lits "PISA: ",
    RE.grp (some "indicator") (cats [
      RE.opt (RE.grp (some "gender") (RE.grp none (RE.alt (lits "Male") (lits "Female")))) false,
      RE.star (RE.cls [CItem.chr ' '] false) false,
      reDigits,
      lits "-year-olds by ",
      RE.grp (some "subject") (RE.star RE.dot true),
      lits " proficiency level (%). ",
      RE.grp (some "level")
        (RE.cat (RE.cls [CItem.nws, CItem.chr ' '] false)
                (RE.star (RE.cls [CItem.nws, CItem.chr ' '] false) false))])]

/-- Selector `'Theoretical duration of .* education \(years\)'`
(source line 206): the parentheses here are escaped, hence literal. -/
def eduSel : RE :=
  cats [lits "Theoretical duration of ", RE.star RE.dot false, lits " education (years)"]

/-- Extractor of `retrieve_education_length` (source line 209):
`'Theoretical duration of (?P<education>[\s\S]+) education (years)'` — the
parentheses around `years` are NOT escaped in the source, so they form a
plain group whose body is the literal text `years`, and no literal
parenthesis is required (or allowed) by the pattern. -/
def eduExt : RE :=
  cats [lits "Theoretical duration of ",
    RE.grp (some "education") (RE.cat reAny (RE.star reAny false)),
    lits " education ",
    RE.grp none (lits "years")]

/-! ## The facet-extracting retrieves used by the claims -/

/-- `retrieve_barrolee_percentage` (source lines 151-170): select the
Barro-Lee percentage rows, extract the named groups from each
`Indicator Name`, fill the absent `gender` with `'total'` and concatenate
the facet columns `['indicator', 'schooling', 'completed', 'age_group',
'gender']`. -/
def retrieve_barrolee_percentage (df : DataFrame) : Except PdErr DataFrame := do
  let dfb ← _retrieve_indicator df (cellMatchCI barroSel)
  let ni ← getColIdx dfb "Indicator Name"
  Except.ok
    { cols := dfb.cols ++ ["indicator", "schooling", "completed", "age_group", "gender"],
      idxrows := dfb.idxrows.map (fun r =>
        let o := extractCaps barroExt (cellAt r.2 ni)
        (r.1, r.2 ++ [capCell o "indicator", capCell o "schooling", capCell o "completed",
                      capCell o "age_group", fillCell (capCell o "gender") "total"])) }

/-- `retrieve_skill_pisa` (source lines 275-294): select the PISA rows,
extract the named groups, fill the absent `gender` with `'Total'` and
concatenate the facet columns `['indicator', 'gender', 'subject',
'level']`. -/
def retrieve_skill_pisa (df : DataFrame) : Except PdErr DataFrame := do
  let dfs ← _retrieve_indicator df (cellMatchCI pisaSel)
  let ni ← getColIdx dfs "Indicator Name"
  Except.ok
    { cols := dfs.cols ++ ["indicator", "gender", "subject", "level"],
      idxrows := dfs.idxrows.map (fun r =>
        let o := extractCaps pisaExt (cellAt r.2 ni)
        (r.1, r.2 ++ [capCell o "indicator", fillCell (capCell o "gender") "Total",
                      capCell o "subject", capCell o "level"])) }

/-- `retrieve_education_length` (source lines 194-212): select the
education-duration rows, extract the `education` group (no fill-in) and
concatenate the facet column `['education']`. -/
def retrieve_education_length (df : DataFrame) : Except PdErr DataFrame := do
  let dfe ← _retrieve_indicator df (cellMatchCI eduSel)
  let ni ← getColIdx dfe "Indicator Name"
  Except.ok
    { cols := dfe.cols ++ ["education"],
      idxrows := dfe.idxrows.map (fun r =>
        let o := extractCaps eduExt (cellAt r.2 ni)
        (r.1, r.2 ++ [capCell o "education"])) }

/-! ## `normalize_population` (source lines 47-84)

The function is modelled as the sequence of its statements; every step
that accesses a column by name goes through `getColIdx` (pandas
`KeyError`).  Line 82 of the source rebuilds the returned frame from the
ORIGINAL `df` (not from the normalized `df_new`): the model reproduces
that literally. -/

/-- The total-population indicator code (source line 60). -/
def popInd : String := "SP.POP.TOTL"

/-- `iloc` positional slice `[a:b]` of a row (Python slices clamp). -/
def sliceCells (a b : Nat) (cells : List Cell) : List Cell := (cells.take b).drop a

/-- `df.iloc[:, a:b]`: positional column slice. -/
def sliceCols (a b : Nat) (d : DataFrame) : DataFrame :=
  { cols := (d.cols.take b).drop a,
    idxrows := d.idxrows.map (fun r => (r.1, sliceCells a b r.2)) }

/-- Lines 63-65: select the `SP.POP.TOTL` rows, then keep only rows with
at least one non-null among positions `4:-1` (a row whose slice is
all-null — or empty — is dropped, matching
`isnull().min(axis=1) == False`). -/
def np_select_pop (df_data : DataFrame) : Except PdErr DataFrame :=
  match getColIdx df_data "Indicator Code" with
  | Except.error e => Except.error e
  | Except.ok ici =>
    let dfp := filterRows df_data (fun cs => decide (cellAt cs ici = Cell.str popInd))
    Except.ok (filterRows dfp (fun cs =>
      (sliceCells 4 (df_data.cols.length - 1) cs).any (fun c => ! c.isNull)))

/-- The numeric value at a position, if any. -/
def numAt (cells : List Cell) (i : Nat) : Option Q :=
  match cellAt cells i with
  | Cell.num q => some q
  | _ => none

/-- Nearest numeric cell at or below position `j`. -/
def prevVal (cells : List Cell) : Nat → Option (Nat × Q)
  | 0 => (numAt cells 0).map (fun q => (0, q))
  | Nat.succ j =>
    match numAt cells (Nat.succ j) with
    | some q => some (Nat.succ j, q)
    | none => prevVal cells j

/-- Nearest numeric cell at or above position `j` (`fuel` bounds the
scan). -/
def nextVal (cells : List Cell) : Nat → Nat → Option (Nat × Q)
  | 0, _ => none
  | Nat.succ fuel, j =>
    match numAt cells j with
    | some q => some (j, q)
    | none => nextVal cells fuel (j + 1)

/-- One cell of `interpolate(axis=1, limit_direction='both')`: a null
between two numeric cells is linearly interpolated over equally spaced
positions; a null before the first (after the last) numeric cell takes
that boundary value; a row with no numeric cell stays null. -/
def interpCell (cells : List Cell) (j : Nat) : Cell :=
  match cellAt cells j with
  | Cell.null =>
    match prevVal cells j, nextVal cells (cells.length - j) j with
    | some (i1, v1), some (i2, v2) =>
      if i1 = i2 then Cell.num v1
      else Cell.num (Q.add v1 (Q.mul (Q.sub v2 v1)
        (Q.div (Q.ofInt ((j : Int) - (i1 : Int))) (Q.ofInt ((i2 : Int) - (i1 : Int))))))
    | some (_, v1), none => Cell.num v1
    | none, some (_, v2) => Cell.num v2
    | none, none => Cell.null
  | c => c

def interpolateRow (cells : List Cell) : List Cell :=
  (List.range cells.length).map (fun j => interpCell cells j)

/-- `df_pop_data['Country Code'] = df_pop['Country Code']` (line 72):
setting a column replaces it where the name exists and appends it
otherwise, aligned positionally (both frames carry the same index). -/
def assignCol (d : DataFrame) (name : String) (vals : List Cell) : DataFrame :=
  if name ∈ d.cols then
    { cols := d.cols,
      idxrows := (d.idxrows.zip vals).map (fun rv =>
        (rv.1.1, (d.cols.zip rv.1.2).map (fun p => if p.1 = name then rv.2 else p.2))) }
  else
    { cols := d.cols ++ [name],
      idxrows := (d.idxrows.zip vals).map (fun rv => (rv.1.1, rv.1.2 ++ [rv.2])) }

/-- Lines 63-73: the population frame handed to the normalisation — the
year slice `iloc[:, 4:50]`, optionally interpolated, with the
`Country Code` column set from `df_pop`. -/
def np_popFrame (df_data : DataFrame) (interpolate : Bool) : Except PdErr DataFrame :=
  match np_select_pop df_data with
  | Except.error e => Except.error e
  | Except.ok dfp =>
    let dfpd0 := sliceCols 4 50 dfp
    let dfpd := if interpolate then
        { cols := dfpd0.cols,
          idxrows := dfpd0.idxrows.map (fun r => (r.1, interpolateRow r.2)) }
      else dfpd0
    match getColIdx dfp "Country Code" with
    | Except.error e => Except.error e
    | Except.ok cci =>
      Except.ok (assignCol dfpd "Country Code" (dfp.idxrows.map (fun r => cellAt r.2 cci)))

/-- Line 76: `df.reset_index().set_index(df['Country Code'])`.
`reset_index` inserts the old index as a leading `'index'` column
(`ValueError` when that column already exists, the dataset frames carry
an unnamed index); `set_index` with a Series re-labels the rows by the
`Country Code` values in row order, keeping the column. -/
def np_setup (df : DataFrame) : Except PdErr DataFrame :=
  if "index" ∈ df.cols then Except.error (PdErr.valueError "cannot insert index, already exists")
  else
    match getColIdx df "Country Code" with
    | Except.error e => Except.error e
    | Except.ok cci =>
      Except.ok { cols := "index" :: df.cols,
                  idxrows := df.idxrows.map (fun r => (cellAt r.2 cci, r.1 :: r.2)) }

/-- `/ 1000` on one cell (line 78); the population year columns hold only
numbers and nulls. -/
def divK : Cell → Cell
  | Cell.num q => Cell.num (Q.div q 1000)
  | _ => Cell.null

/-- Lines 77-78: `df_pop.set_index(df_pop['Country Code']).iloc[:, :-1]`,
divided by 1000 when `popk`. -/
def np_popnorm (dfpop : DataFrame) (popk : Bool) : Except PdErr DataFrame :=
  match getColIdx dfpop "Country Code" with
  | Except.error e => Except.error e
  | Except.ok cci =>
    let d1 : DataFrame := { cols := dfpop.cols,
                            idxrows := dfpop.idxrows.map (fun r => (cellAt r.2 cci, r.2)) }
    let d2 := sliceCols 0 (d1.cols.length - 1) d1
    Except.ok (if popk then
        { cols := d2.cols, idxrows := d2.idxrows.map (fun r => (r.1, r.2.map divK)) }
      else d2)

/-- First row with a given index label. -/
def lookupRow (d : DataFrame) (label : Cell) : Option (List Cell) :=
  (d.idxrows.find? (fun r => decide (r.1 = label))).map (fun r => r.2)

/-- The cell of a frame at an index label and a column name, null when
either is absent (combine alignment fills with NaN). -/
def cellOf (d : DataFrame) (label : Cell) (c : String) : Cell :=
  match lookupRow d label with
  | some cs =>
    if c ∈ d.cols then cellAt cs (d.cols.findIdx (fun x => decide (x = c))) else Cell.null
  | none => Cell.null

/-- The `lambda s1, s2: s1/s2` of line 79 on aligned cells: NaN operands
propagate to NaN; the dataset's populations are non-zero (a zero
denominator is modelled as null, no claim touches it). -/
def divCell : Cell → Cell → Cell
  | Cell.num a, Cell.num b => if b.num = 0 then Cell.null else Cell.num (Q.div a b)
  | _, _ => Cell.null

/-- `df_new.combine(df_pop_norm, lambda s1, s2: s1/s2, overwrite=False)`
(line 79): the result ranges over the union of columns and of index
labels; a column of `a` absent from `b` keeps the `a` values
(`overwrite=False`), any other column is the elementwise division of the
aligned (NaN-filled) cells.  Unions are taken in first-appearance order;
no claim depends on the pandas sort of the unions, since line 82 discards
this frame. -/
def combineDF (a b : DataFrame) : DataFrame :=
  let colsU := a.cols ++ b.cols.filter (fun c => decide (c ∉ a.cols))
  let labsA := a.idxrows.map (fun r => r.1)
  let labsU := labsA ++ ((b.idxrows.map (fun r => r.1)).filter (fun l => decide (l ∉ labsA)))
  { cols := colsU,
    idxrows := labsU.map (fun l => (l, colsU.map (fun c =>
      if c ∈ a.cols ∧ c ∉ b.cols then cellOf a l c
      else divCell (cellOf a l c) (cellOf b l c)))) }

/-- Line 82: `df_new = df.set_index(df['index']).drop('index')` — built
from the ORIGINAL `df`: `df['index']` (`KeyError` when no such column),
re-label the rows by it, then drop the rows labelled `'index'`
(`KeyError` when no row carries that label). -/
def np_final (df : DataFrame) : Except PdErr DataFrame :=
  match getColIdx df "index" with
  | Except.error e => Except.error e
  | Except.ok ii =>
    let d1 : DataFrame := { cols := df.cols,
                            idxrows := df.idxrows.map (fun r => (cellAt r.2 ii, r.2)) }
    if d1.idxrows.any (fun r => decide (r.1 = Cell.str "index")) then
      Except.ok { cols := d1.cols,
                  idxrows := d1.idxrows.filter (fun r => decide (¬ r.1 = Cell.str "index")) }
    else Except.error (PdErr.keyError "index")

/-- `normalize_population` (source lines 47-84), statement for statement.
The combined frame of line 79 is computed and then — exactly as in the
source — discarded by line 82, which returns a frame rebuilt from the
original `df`. -/
def normalize_population (df df_data : DataFrame) (interpolate popk : Bool) :
    Except PdErr DataFrame :=
  match np_popFrame df_data interpolate with
  | Except.error e => Except.error e
  | Except.ok dfpop =>
    match np_setup df with
    | Except.error e => Except.error e
    | Except.ok dfnew =>
      match np_popnorm dfpop popk with
      | Except.error e => Except.error e
      | Except.ok dfpopn =>
        let _combined := combineDF dfnew dfpopn
        np_final df

/-! ## Heap model of the transforms (frame effects)

Python frames are objects: a heap is the list of live frames, a reference
an index into it.  Every pandas expression that builds a frame
(boolean-mask filter, `iloc` slice on these mixed-dtype frames,
`reset_index`/`set_index`, `combine`, `merge`, `drop`, `concat`)
allocates; the two in-place statements of `normalize_population` —
`interpolate(..., inplace=True)` on line 70 and the column assignment on
line 72 — write to the object they name, which is the `df_pop_data` frame
allocated on line 68 from the already-copied `df_pop`.  `HExt st st'`
says every object alive in `st` is unchanged in `st'`. -/

abbrev Heap := List DataFrame

def hget (st : Heap) (r : Nat) : DataFrame := st.getD r default

def halloc (st : Heap) (d : DataFrame) : Heap × Nat := (st ++ [d], st.length)

def hset (st : Heap) (r : Nat) (d : DataFrame) : Heap := st.set r d

/-- The final heap extends the initial one: no pre-existing object (in
particular no input frame) was written. -/
def HExt (st st2 : Heap) : Prop :=
  st.length ≤ st2.length ∧ ∀ r, r < st.length → hget st2 r = hget st r

/-- `normalize_population` over the heap, statement for statement: frames
built by pandas expressions are allocated, the two in-place statements
write to the `df_pop_data` object, and on an exception the heap stays in
the state the raising statement saw. -/
def normalize_population_heap (st : Heap) (rdf rdata : Nat) (interpolate popk : Bool) :
    Heap × Except PdErr Nat :=
  match getColIdx (hget st rdata) "Indicator Code" with
  | Except.error e => (st, Except.error e)
  | Except.ok ici =>
    let p1 := halloc st (filterRows (hget st rdata)
      (fun cs => decide (cellAt cs ici = Cell.str popInd)))
    let dfp1 := hget p1.1 p1.2
    let p2 := halloc p1.1 (filterRows dfp1 (fun cs =>
      (sliceCells 4 (dfp1.cols.length - 1) cs).any (fun c => ! c.isNull)))
    let p3 := halloc p2.1 (sliceCols 4 50 (hget p2.1 p2.2))
    let st4 := if interpolate then
        hset p3.1 p3.2
          (let d := hget p3.1 p3.2
           { cols := d.cols, idxrows := d.idxrows.map (fun r => (r.1, interpolateRow r.2)) })
      else p3.1
    match getColIdx (hget st4 p2.2) "Country Code" with
    | Except.error e => (st4, Except.error e)
    | Except.ok cci =>
      let st5 := hset st4 p3.2 (assignCol (hget st4 p3.2) "Country Code"
        ((hget st4 p2.2).idxrows.map (fun r => cellAt r.2 cci)))
      match np_setup (hget st5 rdf) with
      | Except.error e => (st5, Except.error e)
      | Except.ok dnew =>
        let p6 := halloc st5 dnew
        match np_popnorm (hget p6.1 p3.2) popk with
        | Except.error e => (p6.1, Except.error e)
        | Except.ok dpn =>
          let p7 := halloc p6.1 dpn
          let p8 := halloc p7.1 (combineDF (hget p7.1 p6.2) (hget p7.1 p7.2))
          match np_final (hget p8.1 rdf) with
          | Except.error e => (p8.1, Except.error e)
          | Except.ok dres => ((halloc p8.1 dres).1, Except.ok (halloc p8.1 dres).2)

/-- A transform with one input frame and no in-place statement: read,
compute, allocate the result. -/
def transform1_heap (f : DataFrame → Except PdErr DataFrame) (st : Heap) (r : Nat) :
    Heap × Except PdErr Nat :=
  match f (hget st r) with
  | Except.error e => (st, Except.error e)
  | Except.ok d => ((halloc st d).1, Except.ok (halloc st d).2)

/-- A transform with two input frames and no in-place statement. -/
def transform2_heap (f : DataFrame → DataFrame → Except PdErr DataFrame) (st : Heap)
    (r1 r2 : Nat) : Heap × Except PdErr Nat :=
  match f (hget st r1) (hget st r2) with
  | Except.error e => (st, Except.error e)
  | Except.ok d => ((halloc st d).1, Except.ok (halloc st d).2)

def filter_years_heap (st : Heap) (r : Nat) (years : List String) : Heap × Except PdErr Nat :=
  transform1_heap (fun d => filter_years d years) st r

def append_region_heap (st : Heap) (r1 r2 : Nat) : Heap × Except PdErr Nat :=
  transform2_heap append_region st r1 r2

def retrieve_indicator_heap (st : Heap) (r : Nat) (m : Cell → Bool) : Heap × Except PdErr Nat :=
  transform1_heap (fun d => _retrieve_indicator d m) st r

def retrieve_barrolee_percentage_heap (st : Heap) (r : Nat) : Heap × Except PdErr Nat :=
  transform1_heap retrieve_barrolee_percentage st r

def retrieve_skill_pisa_heap (st : Heap) (r : Nat) : Heap × Except PdErr Nat :=
  transform1_heap retrieve_skill_pisa st r

def retrieve_education_length_heap (st : Heap) (r : Nat) : Heap × Except PdErr Nat :=
  transform1_heap retrieve_education_length st r

/-! ## Concrete frames used by the claim theorems -/

/-- A `df_data`-shaped frame holding the total-population row of country
`X`: population 2000 in 1970 (and 2100 in 1971). -/
def dataPop : DataFrame :=
  ⟨["Country Name", "Country Code", "Indicator Name", "Indicator Code", "1970", "1971"],
   [(Cell.num 0, [Cell.str "X-land", Cell.str "X", Cell.str "Population, total",
                  Cell.str "SP.POP.TOTL", Cell.num 2000, Cell.num 2100])]⟩

/-- A value table holding raw value 500 for country `X` in year 1970. -/
def dfVal : DataFrame :=
  ⟨["Country Name", "Country Code", "Indicator Name", "Indicator Code", "1970"],
   [(Cell.num 0, [Cell.str "X-land", Cell.str "X", Cell.str "Some Indicator",
                  Cell.str "IND.X", Cell.num 500])]⟩

/-- The documented Barro-Lee example row. -/
def dfBarro : DataFrame :=
  ⟨["Country Name", "Country Code", "Indicator Name", "Indicator Code", "1970"],
   [(Cell.num 0, [Cell.str "X-land", Cell.str "X",
                  Cell.str "Barro-Lee: Percentage of female population age 15-19 with Some Secondary",
                  Cell.str "BAR.SEC.ICMP.1519.FE.ZS", Cell.num 12])]⟩

/-- The documented PISA example row. -/
def dfPisa : DataFrame :=
  ⟨["Country Name", "Country Code", "Indicator Name", "Indicator Code", "1970"],
   [(Cell.num 0, [Cell.str "X-land", Cell.str "X",
                  Cell.str "PISA: Female 15-year-olds by mathematics proficiency level (%). Below Level 1",
                  Cell.str "LO.PISA.MAT.0.FE", Cell.num 7])]⟩

/-- An education-length row of the documented shape
`Theoretical duration of X education (years)` with `X = primary`. -/
def dfEdu : DataFrame :=
  ⟨["Country Name", "Country Code", "Indicator Name", "Indicator Code", "1970"],
   [(Cell.num 0, [Cell.str "X-land", Cell.str "X",
                  Cell.str "Theoretical duration of primary education (years)",
                  Cell.str "SE.PRM.DURS", Cell.num 6])]⟩

/-- A frame whose year columns are drawn from the fixed axis but which
lacks most axis columns. -/
def dfYearsPartial : DataFrame :=
  ⟨["Country Code", "1970"], [(Cell.num 0, [Cell.str "A", Cell.num 1])]⟩

/-- A frame carrying every fixed-axis year column. -/
def dfYearsFull : DataFrame :=
  ⟨"Country Code" :: yearAxisStrs,
   [(Cell.num 0, Cell.str "A" :: yearAxisStrs.map (fun _ => Cell.null))]⟩

/-- A two-row value table over countries `A` and `B`. -/
def dfAB : DataFrame :=
  ⟨["Country Code", "1970"],
   [(Cell.num 0, [Cell.str "A", Cell.num 1]), (Cell.num 1, [Cell.str "B", Cell.num 2])]⟩

/-- A country table knowing only country `A`. -/
def dfCountryA : DataFrame :=
  ⟨["Country Code", "Region", "Special Notes"],
   [(Cell.num 0, [Cell.str "A", Cell.str "Europe", Cell.null])]⟩

/-! ## Helper lemmas -/

theorem getColIdx_error_eq {d : DataFrame} {n : String} {e : PdErr}
    (h : getColIdx d n = Except.error e) : e = PdErr.keyError n := by
  unfold getColIdx at h
  by_cases hm : n ∈ d.cols
  · rw [if_pos hm] at h; exact absurd h (by simp)
  · rw [if_neg hm] at h
    exact (Except.error.inj h).symm

theorem getColIdx_notMem {d : DataFrame} {n : String} (h : n ∉ d.cols) :
    getColIdx d n = Except.error (PdErr.keyError n) := by
  unfold getColIdx; rw [if_neg h]

theorem getColIdx_mem {d : DataFrame} {n : String} (h : n ∈ d.cols) :
    getColIdx d n = Except.ok (d.cols.findIdx (fun c => decide (c = n))) := by
  unfold getColIdx; rw [if_pos h]

theorem np_select_pop_error {df_data : DataFrame} {e : PdErr}
    (h : np_select_pop df_data = Except.error e) : ∃ s, e = PdErr.keyError s := by
  unfold np_select_pop at h
  split at h
  · next e2 heq =>
      exact ⟨"Indicator Code", by rw [← Except.error.inj h, getColIdx_error_eq heq]⟩
  · exact absurd h (by simp)

theorem np_popFrame_error {df_data : DataFrame} {i : Bool} {e : PdErr}
    (h : np_popFrame df_data i = Except.error e) : ∃ s, e = PdErr.keyError s := by
  unfold np_popFrame at h
  split at h
  · next e2 heq =>
      obtain ⟨s, hs2⟩ := np_select_pop_error heq
      exact ⟨s, by rw [← Except.error.inj h, hs2]⟩
  · next dfp heq =>
      split at h
      all_goals
        split at h
        · next e2 heq2 =>
            exact ⟨"Country Code", by rw [← Except.error.inj h, getColIdx_error_eq heq2]⟩
        · exact absurd h (by simp)

theorem np_setup_error {df : DataFrame} {e : PdErr} (hidx : "index" ∉ df.cols)
    (h : np_setup df = Except.error e) : ∃ s, e = PdErr.keyError s := by
  unfold np_setup at h
  rw [if_neg hidx] at h
  split at h
  · next e2 heq =>
      exact ⟨"Country Code", by rw [← Except.error.inj h, getColIdx_error_eq heq]⟩
  · exact absurd h (by simp)

theorem np_popnorm_error {dfpop : DataFrame} {p : Bool} {e : PdErr}
    (h : np_popnorm dfpop p = Except.error e) : ∃ s, e = PdErr.keyError s := by
  unfold np_popnorm at h
  split at h
  · next e2 heq =>
      exact ⟨"Country Code", by rw [← Except.error.inj h, getColIdx_error_eq heq]⟩
  · exact absurd h (by simp)

/-! ## Claim theorems -/

set_option maxRecDepth 100000 in
/-- Claim C1 (code_bug record): with population 2000 and raw value 500 for
country `X` in 1970 and `popk = true`, the combine step of line 79 does
compute `500 / (2000/1000) = 250` for that cell — but `normalize_population`
returns a `KeyError` instead of a table holding 250, because line 82
rebuilds the result from the original `df` via its nonexistent `'index'`
column, discarding the normalized frame. -/
theorem C1_normalize_population_discards_normalized_result :
    (Except.bind (np_popFrame dataPop false) (fun dfpop =>
      Except.bind (np_setup dfVal) (fun dfnew =>
        Except.map (fun dfpopn => cellOf (combineDF dfnew dfpopn) (Cell.str "X") "1970")
          (np_popnorm dfpop true)))
      = Except.ok (Cell.num 250)) ∧
    normalize_population dfVal dataPop false true = Except.error (PdErr.keyError "index") :=
  ⟨rfl, rfl⟩

set_option maxRecDepth 100000 in
/-- Claim C2: on the row named
`Barro-Lee: Percentage of female population age 15-19 with Some Secondary`,
`retrieve_barrolee_percentage` keeps the row and appends the facet columns
`indicator`, `schooling`, `completed`, `age_group`, `gender` holding the
full description, `Some Secondary`, null, `age 15-19` and `female`. -/
theorem C2_barrolee_percentage_example :
    retrieve_barrolee_percentage dfBarro = Except.ok
      ⟨["Country Name", "Country Code", "Indicator Name", "Indicator Code", "1970",
        "indicator", "schooling", "completed", "age_group", "gender"],
       [(Cell.num 0, [Cell.str "X-land", Cell.str "X",
          Cell.str "Barro-Lee: Percentage of female population age 15-19 with Some Secondary",
          Cell.str "BAR.SEC.ICMP.1519.FE.ZS", Cell.num 12,
          Cell.str "Percentage of female population age 15-19 with Some Secondary",
          Cell.str "Some Secondary", Cell.null, Cell.str "age 15-19", Cell.str "female"])]⟩ :=
  rfl

set_option maxRecDepth 100000 in
/-- Claim C3: on the row named
`PISA: Female 15-year-olds by mathematics proficiency level (%). Below Level 1`,
`retrieve_skill_pisa` keeps the row and appends the facet columns
`indicator`, `gender`, `subject`, `level` with `gender = Female`,
`subject = mathematics` and `level = Below Level 1`. -/
theorem C3_pisa_example :
    retrieve_skill_pisa dfPisa = Except.ok
      ⟨["Country Name", "Country Code", "Indicator Name", "Indicator Code", "1970",
        "indicator", "gender", "subject", "level"],
       [(Cell.num 0, [Cell.str "X-land", Cell.str "X",
          Cell.str "PISA: Female 15-year-olds by mathematics proficiency level (%). Below Level 1",
          Cell.str "LO.PISA.MAT.0.FE", Cell.num 7,
          Cell.str "Female 15-year-olds by mathematics proficiency level (%). Below Level 1",
          Cell.str "Female", Cell.str "mathematics", Cell.str "Below Level 1"])]⟩ :=
  rfl

set_option maxRecDepth 100000 in
/-- Claim C4 (code_bug record): the name
`Theoretical duration of primary education (years)` matches the coarse
selector of `retrieve_education_length` (its parentheses are escaped), so
the row is retained — but the extraction pattern of line 209 leaves its
parentheses unescaped, demanding the literal text `education years`, which
the name does not contain: the appended `education` facet is null instead
of `primary`. -/
theorem C4_education_length_extraction_yields_null :
    reContains true eduSel "Theoretical duration of primary education (years)" = true ∧
    reSearch false eduExt "Theoretical duration of primary education (years)" = none ∧
    retrieve_education_length dfEdu = Except.ok
      ⟨["Country Name", "Country Code", "Indicator Name", "Indicator Code", "1970", "education"],
       [(Cell.num 0, [Cell.str "X-land", Cell.str "X",
          Cell.str "Theoretical duration of primary education (years)",
          Cell.str "SE.PRM.DURS", Cell.num 6, Cell.null])]⟩ :=
  ⟨rfl, rfl, rfl⟩

/-- Claim C9: when `df` has no column named `'index'`,
`normalize_population` ends in a `KeyError` (raised at the final
re-indexing of line 82 when every earlier column access succeeds, at an
earlier by-name access otherwise) and never returns a table. -/
theorem C9_normalize_population_keyerror_without_index_column
    (df df_data : DataFrame) (interpolate popk : Bool) (h : "index" ∉ df.cols) :
    ∃ s, normalize_population df df_data interpolate popk
      = Except.error (PdErr.keyError s) := by
  unfold normalize_population
  split
  · next e heq =>
      obtain ⟨s, rfl⟩ := np_popFrame_error heq
      exact ⟨s, rfl⟩
  · next dfpop heq =>
      split
      · next e heq2 =>
          obtain ⟨s, rfl⟩ := np_setup_error h heq2
          exact ⟨s, rfl⟩
      · next dfnew heq2 =>
          split
          · next e heq3 =>
              obtain ⟨s, rfl⟩ := np_popnorm_error heq3
              exact ⟨s, rfl⟩
          · next dfpopn heq3 =>
              refine ⟨"index", ?_⟩
              show np_final df = _
              unfold np_final
              rw [getColIdx_notMem h]

/-- Witness for C9 at a concrete frame without an `'index'` column. -/
theorem C9_witness :
    ("index" ∉ dfVal.cols) ∧
    (∃ s, normalize_population dfVal dataPop false true
      = Except.error (PdErr.keyError s)) :=
  ⟨by decide, C9_normalize_population_keyerror_without_index_column dfVal dataPop false true
    (by decide)⟩

/-- Claim C10: `filter_years` fails (pandas `KeyError` from `drop`) as
soon as some fixed-axis year outside the requested list is missing from
the frame's columns. -/
theorem C10_filter_years_keyerror_on_missing_axis_column
    (df : DataFrame) (years : List String)
    (h : ∃ y ∈ yearAxisStrs, y ∉ years ∧ y ∉ df.cols) :
    ∃ e, filter_years df years = Except.error e := by
  obtain ⟨y, hy, hny, hmiss⟩ := h
  unfold filter_years dropCols
  cases hf : (yearAxisStrs.filter (fun a => decide (a ∉ years))).find?
      (fun a => decide (a ∉ df.cols)) with
  | none =>
    exfalso
    have hmem : y ∈ yearAxisStrs.filter (fun a => decide (a ∉ years)) :=
      List.mem_filter.mpr ⟨hy, by simpa using hny⟩
    have := List.find?_eq_none.mp hf y hmem
    simp at this
    exact hmiss this
  | some z => exact ⟨PdErr.keyError z, rfl⟩

/-- Witness for C10 at a frame with no year columns at all. -/
theorem C10_witness :
    (∃ y ∈ yearAxisStrs, y ∉ ([] : List String) ∧ y ∉ dfCountryA.cols) ∧
    (∃ e, filter_years dfCountryA [] = Except.error e) :=
  ⟨by decide, C10_filter_years_keyerror_on_missing_axis_column dfCountryA [] (by decide)⟩

/-- Helper: a predicate holding everywhere keeps every cell. -/
theorem keepCells_true (cols : List String) (cells : List Cell) (k : String → Bool)
    (hk : ∀ c, k c = true) (hlen : cells.length = cols.length) :
    keepCells cols k cells = cells := by
  induction cols generalizing cells with
  | nil =>
    cases cells with
    | nil => rfl
    | cons x xs => simp at hlen
  | cons c cs ih =>
    cases cells with
    | nil => simp at hlen
    | cons x xs =>
      unfold keepCells
      simp only [List.zip_cons_cons, List.filterMap_cons, hk c, if_true]
      have := ih xs (by simpa using hlen)
      unfold keepCells at this
      rw [this]

/-- Claim C5, counterexample: a frame whose year columns are all drawn
from the fixed axis but which lacks most axis columns makes
`filter_years` raise (first missing non-requested axis column `1971`)
instead of returning the projected table the claim describes. -/
theorem C5_counterexample :
    (∀ c ∈ dfYearsPartial.cols, c = "Country Code" ∨ c ∈ yearAxisStrs) ∧
    filter_years dfYearsPartial ["1970"] = Except.error (PdErr.keyError "1971") ∧
    ¬ ∃ d, filter_years dfYearsPartial ["1970"] = Except.ok d := by
  refine ⟨by decide, by rfl, ?_⟩
  rintro ⟨d, hd⟩
  rw [show filter_years dfYearsPartial ["1970"] = Except.error (PdErr.keyError "1971")
    from rfl] at hd
  exact absurd hd (by simp)

/-- Claim C5 as amended: for every rectangular frame carrying ALL
fixed-axis year columns, `filter_years` is the projection the claim
states — the result's columns are the non-year columns of `df` together
with the requested years intersected with the axis, requesting the whole
axis is the identity, and a requested year outside the axis changes
nothing. -/
theorem C5_filter_years_projection (df : DataFrame) (Y : List String)
    (hwf : df.WF) (haxis : ∀ y ∈ yearAxisStrs, y ∈ df.cols) :
    (∃ d, filter_years df Y = Except.ok d ∧
      ∀ c, c ∈ d.cols ↔ ((c ∈ df.cols ∧ c ∉ yearAxisStrs) ∨ (c ∈ Y ∧ c ∈ yearAxisStrs))) ∧
    filter_years df yearAxisStrs = Except.ok df ∧
    (∀ y, y ∉ yearAxisStrs → filter_years df (y :: Y) = filter_years df Y) := by
  refine ⟨?_, ?_, ?_⟩
  · have hfind : (yearAxisStrs.filter (fun a => decide (a ∉ Y))).find?
        (fun a => decide (a ∉ df.cols)) = none := by
      rw [List.find?_eq_none]
      intro a ha
      have := (List.mem_filter.mp ha).1
      simp [haxis a this]
    unfold filter_years dropCols
    rw [hfind]
    refine ⟨_, rfl, ?_⟩
    intro c
    simp only [List.mem_filter, decide_eq_true_eq]
    constructor
    · rintro ⟨hc, hnl⟩
      by_cases ha : c ∈ yearAxisStrs
      · right
        refine ⟨?_, ha⟩
        by_contra hy
        exact hnl ⟨ha, hy⟩
      · exact Or.inl ⟨hc, ha⟩
    · rintro (⟨hc, ha⟩ | ⟨hy, ha⟩)
      · exact ⟨hc, fun hl => ha hl.1⟩
      · exact ⟨haxis c ha, fun hl => hl.2 hy⟩
  · have h0 : yearAxisStrs.filter (fun a => decide (a ∉ yearAxisStrs)) = [] := by
      rw [List.filter_eq_nil_iff]
      intro a ha
      simp [ha]
    unfold filter_years
    rw [h0]
    unfold dropCols
    simp only [List.find?_nil]
    have hcols : df.cols.filter (fun c => decide (c ∉ ([] : List String))) = df.cols := by
      rw [List.filter_eq_self]
      intro a _
      simp
    have hrows : df.idxrows.map
        (fun r => (r.1, keepCells df.cols (fun c => decide (c ∉ ([] : List String))) r.2))
        = df.idxrows := by
      have : ∀ r ∈ df.idxrows,
          (r.1, keepCells df.cols (fun c => decide (c ∉ ([] : List String))) r.2) = r := by
        intro r hr
        rw [keepCells_true df.cols r.2 _ (fun c => by simp) (hwf r hr)]
      rw [List.map_congr_left this]
      exact List.map_id' df.idxrows
    rw [hcols, hrows]
  · intro y hy
    unfold filter_years
    have : yearAxisStrs.filter (fun a => decide (a ∉ y :: Y))
        = yearAxisStrs.filter (fun a => decide (a ∉ Y)) := by
      apply List.filter_congr
      intro a ha
      have hne : a ≠ y := fun h => hy (h ▸ ha)
      simp [List.mem_cons, hne]
    rw [this]

/-- Witness for the amended C5 at a frame holding every axis column. -/
theorem C5_witness : filter_years dfYearsFull yearAxisStrs = Except.ok dfYearsFull :=
  (C5_filter_years_projection dfYearsFull ["1970"] (by decide) (by decide)).2.1

/-- Helper: filtering by "my key is among the keys of the `P`-rows" is a
fixpoint — applying the same construction to the filtered list keeps every
row, because each row of the filtered list owes its key to some `P`-row
that also survives the filter. -/
theorem filter_mem_map_fix {α β : Type} [DecidableEq β] (l : List α) (P : α → Bool) (c : α → β) :
    ((l.filter (fun r => decide (c r ∈ (l.filter P).map c))).filter
      (fun r => decide (c r ∈
        ((l.filter (fun r => decide (c r ∈ (l.filter P).map c))).filter P).map c)))
    = l.filter (fun r => decide (c r ∈ (l.filter P).map c)) := by
  rw [List.filter_eq_self]
  intro r hr
  simp only [decide_eq_true_eq]
  have hrl := List.mem_filter.mp hr
  have hco : c r ∈ (l.filter P).map c := by simpa using hrl.2
  obtain ⟨r2, hr2, hcr⟩ := List.mem_map.mp hco
  have hr2l : r2 ∈ l := (List.mem_filter.mp hr2).1
  have hr2P : P r2 = true := (List.mem_filter.mp hr2).2
  have hr2in : r2 ∈ l.filter (fun r => decide (c r ∈ (l.filter P).map c)) := by
    refine List.mem_filter.mpr ⟨hr2l, ?_⟩
    simp only [decide_eq_true_eq]
    exact List.mem_map.mpr ⟨r2, hr2, rfl⟩
  exact List.mem_map.mpr ⟨r2, List.mem_filter.mpr ⟨hr2in, hr2P⟩, hcr⟩

/-- Claim C6: `_retrieve_indicator` is idempotent — when a first
application returns a frame, applying it again with the same pattern
returns that frame unchanged (`m` is the compiled case-insensitive
pattern's match predicate on a name cell). -/
theorem C6_retrieve_indicator_idempotent (df : DataFrame) (m : Cell → Bool) (d : DataFrame)
    (h : _retrieve_indicator df m = Except.ok d) :
    _retrieve_indicator d m = Except.ok d := by
  unfold _retrieve_indicator at h
  cases hni : getColIdx df "Indicator Name" with
  | error e => rw [hni] at h; exact absurd h (by simp)
  | ok ni =>
    rw [hni] at h
    cases hci : getColIdx df "Indicator Code" with
    | error e => rw [hci] at h; exact absurd h (by simp)
    | ok ci =>
      rw [hci] at h
      have hd : d = filterRows df
          (fun cs => decide (cellAt cs ci ∈ ri_ls_inds df m ni ci)) := (Except.ok.inj h).symm
      subst hd
      unfold _retrieve_indicator
      have hni2 : getColIdx (filterRows df
          (fun cs => decide (cellAt cs ci ∈ ri_ls_inds df m ni ci))) "Indicator Name"
          = Except.ok ni := hni
      have hci2 : getColIdx (filterRows df
          (fun cs => decide (cellAt cs ci ∈ ri_ls_inds df m ni ci))) "Indicator Code"
          = Except.ok ci := hci
      rw [hni2, hci2]
      refine congrArg Except.ok ?_
      show filterRows _ _ = _
      unfold filterRows ri_ls_inds
      refine congrArg (fun rows => DataFrame.mk df.cols rows) ?_
      exact filter_mem_map_fix df.idxrows (fun r => m (cellAt r.2 ni)) (fun r => cellAt r.2 ci)

/-- Witness for C6 on the Barro-Lee example frame, whose single row
matches its selector. -/
theorem C6_witness : _retrieve_indicator dfBarro (cellMatchCI barroSel) = Except.ok dfBarro :=
  C6_retrieve_indicator_idempotent dfBarro (cellMatchCI barroSel) dfBarro (by rfl)

/-- Helper: with pairwise-distinct keys, filtering the pairs by one key
yields exactly one pair when the key occurs and none otherwise. -/
theorem nodup_filter_fst_len (proj : List (Cell × Cell))
    (hnd : (proj.map Prod.fst).Nodup) (c : Cell) :
    (proj.filter (fun pr => decide (pr.1 = c))).length
      = if c ∈ proj.map Prod.fst then 1 else 0 := by
  induction proj with
  | nil => simp
  | cons p ps ih =>
    simp only [List.map_cons, List.nodup_cons] at hnd
    by_cases hp : p.1 = c
    · subst hp
      rw [List.filter_cons_of_pos (by simp)]
      simp only [List.length_cons, ih hnd.2, List.map_cons, List.mem_cons]
      rw [if_neg (by simpa using hnd.1)]
      simp
    · rw [List.filter_cons_of_neg (by simpa using hp)]
      rw [ih hnd.2]
      simp only [List.map_cons, List.mem_cons]
      by_cases hc : c ∈ ps.map Prod.fst
      · rw [if_pos hc, if_pos (Or.inr hc)]
      · rw [if_neg hc, if_neg (by rintro (h | h); exact hp h.symm; exact hc h)]

/-- Helper: the row multiset facts of the inner merge — at most one output
row per input row (keys of the right side distinct), equality of counts
exactly when every key occurs, and the output keys are the input keys
filtered to the present ones. -/
theorem merge_flatMap_facts (proj : List (Cell × Cell)) (i : Nat)
    (hnd : (proj.map Prod.fst).Nodup) :
    ∀ rows : List (List Cell), (∀ cs ∈ rows, i < cs.length) →
      ((rows.flatMap (fun cs => (proj.filter (fun pr => decide (pr.1 = cellAt cs i))).map
          (fun pr => cs ++ [pr.2]))).length ≤ rows.length) ∧
      ((rows.flatMap (fun cs => (proj.filter (fun pr => decide (pr.1 = cellAt cs i))).map
          (fun pr => cs ++ [pr.2]))).length = rows.length
        ↔ ∀ cs ∈ rows, cellAt cs i ∈ proj.map Prod.fst) ∧
      ((rows.flatMap (fun cs => (proj.filter (fun pr => decide (pr.1 = cellAt cs i))).map
          (fun pr => cs ++ [pr.2]))).map (fun cs2 => cellAt cs2 i)
        = (rows.map (fun cs => cellAt cs i)).filter
            (fun c => decide (c ∈ proj.map Prod.fst))) := by
  intro rows
  induction rows with
  | nil => intro _; exact ⟨Nat.le_refl 0, by simp, by simp⟩
  | cons cs rows ih =>
    intro hlen
    have hcs : i < cs.length := hlen cs (List.mem_cons_self cs rows)
    have ih2 := ih (fun cs2 h2 => hlen cs2 (List.mem_cons_of_mem cs h2))
    have hmapkey : ((proj.filter (fun pr => decide (pr.1 = cellAt cs i))).map
        (fun pr => cs ++ [pr.2])).map (fun cs2 => cellAt cs2 i)
        = (proj.filter (fun pr => decide (pr.1 = cellAt cs i))).map (fun _ => cellAt cs i) := by
      rw [List.map_map]
      refine List.map_congr_left ?_
      intro pr _
      show cellAt (cs ++ [pr.2]) i = cellAt cs i
      unfold cellAt
      exact List.getD_append cs [pr.2] Cell.null i hcs
    rw [List.flatMap_cons]
    by_cases hmem : cellAt cs i ∈ proj.map Prod.fst
    · have hone : (proj.filter (fun pr => decide (pr.1 = cellAt cs i))).length = 1 := by
        rw [nodup_filter_fst_len proj hnd, if_pos hmem]
      refine ⟨?_, ?_, ?_⟩
      · simp only [List.length_append, List.length_map, hone, List.length_cons]
        omega
      · simp only [List.length_append, List.length_map, hone, List.length_cons]
        constructor
        · intro he cs2 h2
          rcases List.mem_cons.mp h2 with h2 | h2
          · exact h2 ▸ hmem
          · exact (ih2.2.1.mp (by omega)) cs2 h2
        · intro hall
          have := ih2.2.1.mpr (fun cs2 h2 => hall cs2 (List.mem_cons_of_mem cs h2))
          omega
      · rw [List.map_append, hmapkey]
        obtain ⟨pr, hpr⟩ : ∃ pr, proj.filter (fun pr => decide (pr.1 = cellAt cs i)) = [pr] :=
          List.length_eq_one.mp hone
        rw [hpr]
        simp only [List.map_cons, List.map_nil, List.map_cons]
        rw [List.filter_cons_of_pos (by simpa using hmem)]
        simp only [List.cons_append, List.nil_append, List.cons.injEq]
        exact ⟨trivial, ih2.2.2⟩
    · have hzero : (proj.filter (fun pr => decide (pr.1 = cellAt cs i))).length = 0 := by
        rw [nodup_filter_fst_len proj hnd, if_neg hmem]
      have hnil : proj.filter (fun pr => decide (pr.1 = cellAt cs i)) = [] :=
        List.length_eq_zero.mp hzero
      refine ⟨?_, ?_, ?_⟩
      · rw [hnil]
        simp only [List.map_nil, List.nil_append, List.length_cons]
        omega
      · rw [hnil]
        simp only [List.map_nil, List.nil_append, List.length_cons]
        constructor
        · intro he
          exact absurd (ih2.1) (by omega)
        · intro hall
          exact absurd (hall cs (List.mem_cons_self cs rows)) hmem
      · rw [hnil]
        simp only [List.map_nil, List.nil_append, List.map_cons]
        rw [List.filter_cons_of_neg (by simpa using hmem)]
        exact ih2.2.2

/-- Helper: `findIdx` ignores an appended suffix when the prefix already
contains a hit. -/
theorem findIdx_append_left {α : Type} (p : α → Bool) (l1 l2 : List α)
    (h : ∃ x ∈ l1, p x = true) : (l1 ++ l2).findIdx p = l1.findIdx p := by
  rw [List.findIdx_append]
  rw [if_pos (List.findIdx_lt_length_of_exists h)]

/-- Helper: `rangeLabels` relabels without touching the cells. -/
theorem rangeLabels_map_cells (R : List (List Cell)) (f : List Cell → Cell) :
    (rangeLabels R).map (fun r => f r.2) = R.map f := by
  unfold rangeLabels
  rw [List.map_map]
  conv_rhs => rw [← List.enum_map_snd R]
  rw [List.map_map]
  rfl

theorem rangeLabels_length (R : List (List Cell)) : (rangeLabels R).length = R.length := by
  unfold rangeLabels
  simp

/-- Claim C7: `append_region` with a country table of pairwise-distinct
codes returns at most as many rows as `df`, exactly as many precisely when
every code of `df` occurs in the country table, and the returned rows are
the rows of `df` whose code occurs there (absent codes are dropped), in
order. -/
theorem C7_append_region_inner_join (df dfc : DataFrame) (hwf : df.WF)
    (h1 : "Country Code" ∈ df.cols) (h2 : "Country Code" ∈ dfc.cols)
    (h3 : "Region" ∈ dfc.cols) (hnd : (dfCodes dfc).Nodup) :
    ∃ d, append_region df dfc = Except.ok d ∧
      d.idxrows.length ≤ df.idxrows.length ∧
      (d.idxrows.length = df.idxrows.length ↔ ∀ c ∈ dfCodes df, c ∈ dfCodes dfc) ∧
      dfCodes d = (dfCodes df).filter (fun c => decide (c ∈ dfCodes dfc)) := by
  unfold append_region
  rw [getColIdx_mem h2, getColIdx_mem h3, getColIdx_mem h1]
  refine ⟨_, rfl, ?_, ?_, ?_⟩
  all_goals
    have hkeys : ((dfc.idxrows.map (fun r =>
        (cellAt r.2 (dfc.cols.findIdx (fun c => decide (c = "Country Code"))),
         cellAt r.2 (dfc.cols.findIdx (fun c => decide (c = "Region")))))).map Prod.fst)
        = dfCodes dfc := by
      rw [List.map_map]; rfl
    have hndk := hkeys.symm ▸ hnd
    have hilen : ∀ cs ∈ df.idxrows.map (fun r => r.2),
        df.cols.findIdx (fun c => decide (c = "Country Code")) < cs.length := by
      intro cs hcs
      obtain ⟨r, hr, rfl⟩ := List.mem_map.mp hcs
      rw [hwf r hr]
      exact List.findIdx_lt_length_of_exists ⟨"Country Code", h1, by simp⟩
    have mf := merge_flatMap_facts
      (dfc.idxrows.map (fun r =>
        (cellAt r.2 (dfc.cols.findIdx (fun c => decide (c = "Country Code"))),
         cellAt r.2 (dfc.cols.findIdx (fun c => decide (c = "Region"))))))
      (df.cols.findIdx (fun c => decide (c = "Country Code"))) hndk
      (df.idxrows.map (fun r => r.2)) hilen
    have hcodes_df : dfCodes df = (df.idxrows.map (fun r => r.2)).map
        (fun cs => cellAt cs (df.cols.findIdx (fun c => decide (c = "Country Code")))) := by
      unfold dfCodes dfCCIdx
      rw [List.map_map]
      rfl
  · show (rangeLabels _).length ≤ _
    rw [rangeLabels_length]
    calc _ ≤ (df.idxrows.map (fun r => r.2)).length := mf.1
    _ = df.idxrows.length := by rw [List.length_map]
  · show (rangeLabels _).length = _ ↔ _
    rw [rangeLabels_length]
    rw [show df.idxrows.length = (df.idxrows.map (fun r => r.2)).length by rw [List.length_map]]
    rw [mf.2.1]
    constructor
    · intro hall c hc
      rw [hcodes_df] at hc
      obtain ⟨cs, hcs, rfl⟩ := List.mem_map.mp hc
      rw [← hkeys]
      exact hall cs hcs
    · intro hall cs hcs
      rw [hkeys]
      refine hall _ ?_
      rw [hcodes_df]
      exact List.mem_map.mpr ⟨cs, hcs, rfl⟩
  · show dfCodes _ = _
    rw [hcodes_df, ← hkeys, ← mf.2.2]
    unfold dfCodes dfCCIdx
    rw [findIdx_append_left (fun c => decide (c = "Country Code")) df.cols ["Region"]
      ⟨"Country Code", h1, by simp⟩]
    show (rangeLabels _).map
      (fun r => cellAt r.2 (df.cols.findIdx (fun c => decide (c = "Country Code")))) = _
    exact rangeLabels_map_cells _
      (fun cs => cellAt cs (df.cols.findIdx (fun c => decide (c = "Country Code"))))

/-- Witness for C7: country table knowing only `A`, value table over `A`
and `B` (the `B` row is dropped). -/
theorem C7_witness :
    ∃ d, append_region dfAB dfCountryA = Except.ok d ∧
      d.idxrows.length ≤ dfAB.idxrows.length ∧
      (d.idxrows.length = dfAB.idxrows.length ↔ ∀ c ∈ dfCodes dfAB, c ∈ dfCodes dfCountryA) ∧
      dfCodes d = (dfCodes dfAB).filter (fun c => decide (c ∈ dfCodes dfCountryA)) :=
  C7_append_region_inner_join dfAB dfCountryA (by decide) (by decide) (by decide)
    (by decide) (by decide)

/-! ## Frame effects (claim C8) -/

theorem hext_refl (st : Heap) : HExt st st := ⟨Nat.le_refl _, fun _ _ => rfl⟩

theorem hext_alloc {st st2 : Heap} (h : HExt st st2) (d : DataFrame) :
    HExt st (st2 ++ [d]) := by
  refine ⟨Nat.le_trans h.1 (by simp), fun r hr => ?_⟩
  have hr2 : r < st2.length := Nat.lt_of_lt_of_le hr h.1
  unfold hget
  rw [List.getD_append _ _ _ _ hr2]
  exact h.2 r hr

theorem hext_write {st st2 : Heap} {k : Nat} {d : DataFrame} (h : HExt st st2)
    (hk : st.length ≤ k) : HExt st (st2.set k d) := by
  refine ⟨by rw [List.length_set]; exact h.1, fun r hr => ?_⟩
  unfold hget
  rw [List.getD_eq_getElem?_getD, List.getElem?_set_ne (by omega : k ≠ r),
    ← List.getD_eq_getElem?_getD]
  exact h.2 r hr

theorem transform1_heap_ext (f : DataFrame → Except PdErr DataFrame) (st : Heap) (r : Nat) :
    HExt st (transform1_heap f st r).1 := by
  unfold transform1_heap
  cases hf : f (hget st r) with
  | error e => exact hext_refl st
  | ok d => exact hext_alloc (hext_refl st) d

theorem transform2_heap_ext (f : DataFrame → DataFrame → Except PdErr DataFrame)
    (st : Heap) (r1 r2 : Nat) : HExt st (transform2_heap f st r1 r2).1 := by
  unfold transform2_heap
  cases hf : f (hget st r1) (hget st r2) with
  | error e => exact hext_refl st
  | ok d => exact hext_alloc (hext_refl st) d

theorem normalize_population_heap_ext (st : Heap) (rdf rdata : Nat) (i p : Bool) :
    HExt st (normalize_population_heap st rdf rdata i p).1 := by
  unfold normalize_population_heap
  simp only [halloc, hset]
  split
  · exact hext_refl st
  · split
    all_goals split
    all_goals try split
    all_goals try split
    all_goals try split
    all_goals
      repeat'
        first
          | exact hext_refl st
          | apply hext_alloc
          | apply hext_write
    all_goals
      simp only [List.length_append, List.length_set, List.length_cons, List.length_nil]
    all_goals omega

/-- Claim C8: none of the transforms writes to a pre-existing frame
object — over the heap model, every object alive before the call (in
particular the input frames at `rdf` and `rdata`) holds the same frame
after it, for `normalize_population` (including `interpolate = true`,
whose in-place statements write only to the freshly allocated
`df_pop_data` object) and for the allocation-only transforms. -/
theorem C8_transforms_preserve_inputs (st : Heap) (rdf rdata : Nat) (i p : Bool)
    (years : List String) (m : Cell → Bool) :
    HExt st (normalize_population_heap st rdf rdata i p).1 ∧
    HExt st (filter_years_heap st rdf years).1 ∧
    HExt st (append_region_heap st rdf rdata).1 ∧
    HExt st (retrieve_indicator_heap st rdf m).1 ∧
    HExt st (retrieve_barrolee_percentage_heap st rdf).1 ∧
    HExt st (retrieve_skill_pisa_heap st rdf).1 ∧
    HExt st (retrieve_education_length_heap st rdf).1 :=
  ⟨normalize_population_heap_ext st rdf rdata i p,
   transform1_heap_ext _ st rdf,
   transform2_heap_ext _ st rdf rdata,
   transform1_heap_ext _ st rdf,
   transform1_heap_ext _ st rdf,
   transform1_heap_ext _ st rdf,
   transform1_heap_ext _ st rdf⟩

end EdStats
